import Mathlib

/-!
Verification of `utils_nlp/models/mtdnn/process_mtdnn.py`:
a shallow embedding of the task-registration / config-derivation engine
(`MTDNNDataProcess`) and the training/evaluation pipeline driver
(`MTDNNPipelineProcess`), with theorems about the invariants the
specification states for them.

Modelling conventions:
- Python `dict`s are embedded as insertion-ordered association lists
  (`alookup` finds the first, hence unique, binding; bindings are only
  ever inserted for absent keys, exactly as the source does).
- Values whose internals the claims never inspect (loss types,
  distillation-loss types, data types, dropout probabilities, running
  loss averages) are carried as opaque `Nat` tokens: only their placement
  in the parallel arrays matters.
- Python integers are `Int` where the source compares or computes with
  them (`mtl_opt`, `answer_opt`), `Nat` for counters and indices.
- Elapsed wall-clock time is an abstract `ℚ` parameter; the remaining
  time estimate is the exact arithmetic the source performs on it.
- A Python name that is free in a function body is resolved against the
  module's global bindings; resolution of an unbound name is a
  `NameError` value, embedded via `Except`.
-/

/-- Association-list lookup with Python dict semantics: the first binding
for the key wins (the source only inserts a key when it is absent, so a
key is bound at most once). -/
def alookup {α β : Type} [DecidableEq α] (k : α) : List (α × β) → Option β
  | [] => none
  | (k', v) :: l => if k' = k then some v else alookup k l

/-- Python `dataset.split("_")[0]`: the part of the string before the
first underscore (the whole string when there is none, the empty string
for the empty string — exactly `str.split`'s first element). -/
def pySplitHead (s : String) : String :=
  String.mk (s.toList.takeWhile (fun c => c ≠ '_'))

/-- Python `os.path.join(a, b)` for a relative second component. -/
def pyJoin (a b : String) : String := a ++ "/" ++ b

/-- The names bound at module level in `process_mtdnn.py`: its imports
(`import json` …, `from … import …`) and its own top-level definitions.
Free names inside method bodies resolve against this environment. -/
def moduleBindings : List String :=
  ["json", "logging", "os", "random", "datetime", "torch", "SummaryWriter",
   "BatchSampler", "DataLoader", "Dataset", "submit", "TaskType",
   "MTDNNCommonUtils", "MTDNNConfig", "MTDNNCollater",
   "MTDNNMultiTaskBatchSampler", "MTDNNMultiTaskDataset",
   "MTDNNSingleTaskDataset", "MTDNNModel", "TaskDefs", "logger",
   "MTDNNDataProcess", "MTDNNPipelineProcess"]

/-- Python runtime errors the embedded code can raise. -/
inductive PyError : Type
  | nameError (n : String)
  deriving DecidableEq, Repr

/-- Resolution of a name that is free in a method body: Python falls back
to the module's globals and raises `NameError` when the name is unbound
there too.  The `.ok` payload is an opaque stand-in for whatever value a
bound global would hold; for the names this file resolves, only the
error path is reachable. -/
def pyGlobal (n : String) : Except PyError String :=
  if moduleBindings.contains n then .ok ("<" ++ n ++ ">") else .error (.nameError n)

/-- Task types from `utils_nlp.models.mtdnn.common.types.TaskType`; only
`Ranking` is inspected by the embedded code (for the pairwise flag). -/
inductive TaskType : Type
  | Classification
  | Regression
  | Ranking
  | Span
  | SeqenceLabeling
  deriving DecidableEq, Repr

/-- The slice of `TaskDefs` the embedded code reads: per-prefix maps,
embedded as insertion-ordered association lists. -/
structure TaskDefs : Type where
  n_class_map : List (String × Nat)
  data_type_map : List (String × Nat)
  task_type_map : List (String × TaskType)
  enable_san_map : List (String × Bool)
  loss_map : List (String × Nat)
  kd_loss_map : List (String × Nat)
  dropout_p_map : List (String × Nat)
  deriving DecidableEq, Repr

/-- The slice of `MTDNNConfig` the embedded code reads.  Fields the
claims never touch (batch sizes, cuda, encoder type, …) are omitted. -/
structure MTDNNConfig : Type where
  mtl_opt : Int
  answer_opt : Int
  dropout_p : Nat
  epochs : Nat
  log_per_updates : Nat
  grad_accumulation_step : Nat
  save_per_updates : Nat
  save_per_updates_on : Bool
  use_tensor_board : Bool
  deriving DecidableEq, Repr

/-- The mutable registry state `MTDNNDataProcess` builds while iterating
the training datasets: `tasks` (`prefix -> task_id`), `tasks_class`
(`label_count -> task_class_id`), and the six parallel sequences.
`tagged` records, per loaded training dataset, the `(prefix, task_id)`
pair that the source logs ("Loading … as task {task_id}") and bakes into
the single-task dataset it constructs. -/
structure RegistryState : Type where
  tasks : List (String × Nat)
  tasks_class : List (Nat × Nat)
  nclass_list : List Nat
  decoder_opts : List Int
  task_types : List TaskType
  dropout_list : List Nat
  loss_types : List Nat
  kd_loss_types : List Nat
  tagged : List (String × Nat)
  deriving DecidableEq, Repr

/-- The empty registry state set up in `MTDNNDataProcess.__init__`. -/
def initRegistry : RegistryState :=
  { tasks := [], tasks_class := [], nclass_list := [], decoder_opts := [],
    task_types := [], dropout_list := [], loss_types := [], kd_loss_types := [],
    tagged := [] }

/-- `MTDNNDataProcess.generate_decoder_opt`: `max_opt if enable_san and
max_opt < 3 else 0`. -/
def generate_decoder_opt (enable_san : Bool) (max_opt : Int) : Int :=
  if enable_san ∧ max_opt < 3 then max_opt else 0

/-- Lines 99–102 of the source: reconcile the decoder option for
`task_id` by `min` when the slot already exists, else append. -/
def updateMin (l : List Int) (i : Nat) (v : Int) : List Int :=
  if h : i < l.length then l.set i (min (l.get ⟨i, h⟩) v) else l ++ [v]

/-- The body of one iteration of the `_process_train_datasets` loop for a
prefix that is not yet registered, after all `task_defs` lookups have
succeeded.  Mirrors lines 86–121 of the source.  The source's inner
`if prefix not in self.tasks` (line 107) is vacuously true here, because
the loop `continue`d at line 81 otherwise and nothing registers the
prefix in between, so the registration is unconditional. -/
def registerTask (cfg : MTDNNConfig) (st : RegistryState) (pfx : String)
    (nclass : Nat) (ttype : TaskType) (san : Bool) (lossT kdT dropout : Nat) :
    RegistryState :=
  let task_id : Nat :=
    if 0 < cfg.mtl_opt then
      match alookup nclass st.tasks_class with
      | some cid => cid
      | none => st.tasks_class.length
    else st.tasks.length
  let dopt := generate_decoder_opt san cfg.answer_opt
  let nclass_list1 :=
    if cfg.mtl_opt < 1 then st.nclass_list ++ [nclass] else st.nclass_list
  { tasks := st.tasks ++ [(pfx, st.tasks.length)]
    tasks_class :=
      match alookup nclass st.tasks_class with
      | some _ => st.tasks_class
      | none => st.tasks_class ++ [(nclass, st.tasks_class.length)]
    nclass_list :=
      match alookup nclass st.tasks_class with
      | some _ => nclass_list1
      | none => if 0 < cfg.mtl_opt then nclass_list1 ++ [nclass] else nclass_list1
    decoder_opts := updateMin st.decoder_opts task_id dopt
    task_types := st.task_types ++ [ttype]
    dropout_list := st.dropout_list ++ [dropout]
    loss_types := st.loss_types ++ [lossT]
    kd_loss_types := st.kd_loss_types ++ [kdT]
    tagged := st.tagged ++ [(pfx, task_id)] }

/-- One iteration of the `_process_train_datasets` loop (lines 78–130):
skip an already-registered prefix, fail (`assert` / `KeyError`) when a
`task_defs` map misses the prefix, otherwise register the task.
`data_type` is looked up (the source asserts it and passes it to the
dataset constructor) but does not enter the registry state. -/
def processOne (cfg : MTDNNConfig) (td : TaskDefs) (st : RegistryState)
    (dataset : String) : Option RegistryState :=
  let pfx := pySplitHead dataset
  if (alookup pfx st.tasks).isSome then some st
  else
    match alookup pfx td.n_class_map, alookup pfx td.data_type_map,
        alookup pfx td.task_type_map, alookup pfx td.enable_san_map,
        alookup pfx td.loss_map, alookup pfx td.kd_loss_map with
    | some nclass, some _, some ttype, some san, some lossT, some kdT =>
        let dropout := (alookup pfx td.dropout_p_map).getD cfg.dropout_p
        some (registerTask cfg st pfx nclass ttype san lossT kdT dropout)
    | _, _, _, _, _, _ => none

/-- The `for dataset in self.train_datasets` loop, threading the registry
state. -/
def processLoop (cfg : MTDNNConfig) (td : TaskDefs) :
    List String → RegistryState → Option RegistryState
  | [], st => some st
  | d :: rest, st =>
    match processOne cfg td st d with
    | none => none
    | some st' => processLoop cfg td rest st'

/-- `MTDNNDataProcess._process_train_datasets`, restricted to the registry
state it builds (the dataloader plumbing it returns is opaque to the
claims). -/
def process_train_datasets (cfg : MTDNNConfig) (td : TaskDefs)
    (train_datasets : List String) : Option RegistryState :=
  processLoop cfg td train_datasets initRegistry

/-- The run configuration after `MTDNNDataProcess.update_config` has
merged the registry snapshot into it (`setattr` of the six derived
fields). -/
structure UpdatedConfig : Type where
  base : MTDNNConfig
  decoder_opts : List Int
  task_types : List TaskType
  tasks_dropout_p : List Nat
  loss_types : List Nat
  kd_loss_types : List Nat
  tasks_nclass_list : List Nat
  deriving DecidableEq, Repr

/-- `MTDNNDataProcess.update_config`. -/
def update_config (cfg : MTDNNConfig) (st : RegistryState) : UpdatedConfig :=
  { base := cfg
    decoder_opts := st.decoder_opts
    task_types := st.task_types
    tasks_dropout_p := st.dropout_list
    loss_types := st.loss_types
    kd_loss_types := st.kd_loss_types
    tasks_nclass_list := st.nclass_list }

/-- The number of distinct ids produced under the active sharing policy:
distinct task-class ids when class-sharing is enabled (`mtl_opt > 0`),
distinct task ids otherwise. -/
def idCount (cfg : MTDNNConfig) (st : RegistryState) : Nat :=
  if 0 < cfg.mtl_opt then st.tasks_class.length else st.tasks.length

/-- Task-id resolution in `_process_dev_test_datasets` (lines 162–166):
`tasks_class[n_class_map[prefix]]` under class-sharing, else
`tasks[prefix]`; a missing key is a `KeyError`, i.e. `none`. -/
def testResolveId (cfg : MTDNNConfig) (td : TaskDefs) (st : RegistryState)
    (pfx : String) : Option Nat :=
  if 0 < cfg.mtl_opt then
    match alookup pfx td.n_class_map with
    | some nc => alookup nc st.tasks_class
    | none => none
  else alookup pfx st.tasks

/-- What a constructed dev/test dataloader carries, as far as the claims
observe it: the file it reads and the task tagging baked into its
single-task dataset. -/
structure LoaderSpec : Type where
  path : String
  task_id : Nat
  task_type : TaskType
  data_type : Nat
  deriving DecidableEq, Repr

/-- The body of one iteration of the `_process_dev_test_datasets` loop
(lines 160–212): resolve the id and task/data types, then build the dev
and test entries, each `none` when its file is absent.  The `pw_task`
flag the source computes (`task_type == TaskType.Ranking`) is dead in
this function body and is not recorded. -/
def devTestOne (cfg : MTDNNConfig) (td : TaskDefs) (st : RegistryState)
    (data_dir : String) (file_exists : String → Bool) (dataset : String) :
    Option (Option LoaderSpec × Option LoaderSpec) :=
  let pfx := pySplitHead dataset
  match testResolveId cfg td st pfx, alookup pfx td.task_type_map,
      alookup pfx td.data_type_map with
  | some task_id, some ttype, some dtype =>
      let dev_path := pyJoin data_dir (dataset ++ "_dev.json")
      let dev_data : Option LoaderSpec :=
        if file_exists dev_path then some ⟨dev_path, task_id, ttype, dtype⟩
        else none
      let test_path := pyJoin data_dir (dataset ++ "_test.json")
      let test_data : Option LoaderSpec :=
        if file_exists test_path then some ⟨test_path, task_id, ttype, dtype⟩
        else none
      some (dev_data, test_data)
  | _, _, _ => none

/-- The `for dataset in self.test_datasets` loop, appending one dev entry
and one test entry per iteration. -/
def devTestLoop (cfg : MTDNNConfig) (td : TaskDefs) (st : RegistryState)
    (data_dir : String) (file_exists : String → Bool) :
    List String → List (Option LoaderSpec) → List (Option LoaderSpec) →
    Option (List (Option LoaderSpec) × List (Option LoaderSpec))
  | [], devs, tests => some (devs, tests)
  | d :: rest, devs, tests =>
    match devTestOne cfg td st data_dir file_exists d with
    | none => none
    | some (dev_data, test_data) =>
      devTestLoop cfg td st data_dir file_exists rest
        (devs ++ [dev_data]) (tests ++ [test_data])

/-- `MTDNNDataProcess._process_dev_test_datasets`. -/
def process_dev_test_datasets (cfg : MTDNNConfig) (td : TaskDefs)
    (st : RegistryState) (data_dir : String) (file_exists : String → Bool)
    (test_datasets : List String) :
    Option (List (Option LoaderSpec) × List (Option LoaderSpec)) :=
  devTestLoop cfg td st data_dir file_exists test_datasets [] []

/-- The model counters `MTDNNPipelineProcess.fit` reads after each
`model.update` call: the monotone local update count, the model-reported
global update count, and the running loss average (an opaque token). -/
structure ModelState : Type where
  local_updates : Nat
  updates : Nat
  train_loss_avg : Nat
  deriving DecidableEq, Repr

/-- The payload of the periodic training log/metric event (line 321–325
of the source): task id of the current batch, global update count,
running loss average, and the remaining-time estimate. -/
structure LogEvent : Type where
  task_id : Nat
  updates : Nat
  train_loss_avg : Nat
  time_left : ℚ
  deriving DecidableEq, Repr

/-- What one iteration of the `fit` batch loop observably does after
`model.update` returns: the optional log event and the outcome of the
optional interval-checkpoint attempt. -/
structure FitBatchObs : Type where
  logEvent : Option LogEvent
  saveResult : Option (Except PyError String)
  deriving Repr

/-- Lines 308–340 of the source: the post-update part of one `fit` batch
iteration.  `idx` is the 0-based batch index, `total` the dataloader
length, `elapsed` the wall-clock time since the epoch started.  The
remaining-time estimate is `(datetime.now() - start) / (idx + 1) *
(len(dataloader) - idx - 1)`.  The checkpoint branch builds its path from
the free name `output_dir` — unbound in the module (the constructor
stored the directory as `self.output_dir`), so reaching it raises
`NameError` before `"model_{}_{}.pt".format(epoch, self.model.updates)`
is even joined. -/
def fitBatchStep (cfg : MTDNNConfig) (m : ModelState) (task_id : Nat)
    (idx total : Nat) (elapsed : ℚ) (epoch : Nat) : FitBatchObs :=
  let logEvent : Option LogEvent :=
    if m.local_updates = 1 ∨
        m.local_updates % (cfg.log_per_updates * cfg.grad_accumulation_step) = 0 then
      some { task_id := task_id, updates := m.updates,
             train_loss_avg := m.train_loss_avg,
             time_left := elapsed / ((idx : ℚ) + 1) * ((total : ℚ) - (idx : ℚ) - 1) }
    else none
  let saveResult : Option (Except PyError String) :=
    if cfg.save_per_updates_on ∧
        m.local_updates % (cfg.save_per_updates * cfg.grad_accumulation_step) = 0 then
      some (match pyGlobal "output_dir" with
        | .error e => .error e
        | .ok d =>
          .ok (pyJoin d ("model_" ++ toString epoch ++ "_" ++ toString m.updates ++ ".pt")))
    else none
  { logEvent := logEvent, saveResult := saveResult }

/-- The dev phase of one `predict` iteration (lines 348–378), observed as
the score-artifact paths it writes and the metric events it emits for
that split.  When the dev dataloader is `None` the whole block is
skipped.  When it is present, the first expression evaluated —
`self.model.eval_model(dev_data, metric_meta=task_defs.metric_meta_map[prefix], …)`
— reads the free name `task_defs` (the constructor stored
`self.task_defs`), unbound in the module, so it raises `NameError`
before any artifact or event is produced. -/
def predictDevPhase (dev_data : Option LoaderSpec) :
    Except PyError (List String × List (String × Nat)) :=
  match dev_data with
  | none => .ok ([], [])
  | some _ => .error (.nameError "task_defs")

/-- The test phase of one `predict` iteration (lines 381–405), with the
same structure: skipped when the test dataloader is `None`, and a
`NameError` on the free name `task_defs` when it is present. -/
def predictTestPhase (test_data : Option LoaderSpec) :
    Except PyError (List String × List (String × Nat)) :=
  match test_data with
  | none => .ok ([], [])
  | some _ => .error (.nameError "task_defs")

/-- Lines 407–411 of `predict`: after all tasks are processed, build
`os.path.join(output_dir, f"model_{epoch}.pt")`, save the model there,
then `close_connections()` (which closes the tensorboard sink only when
`use_tensor_board` is set).  Both `output_dir` and `epoch` are free names
in `predict` (never assigned in the function, unbound in the module), and
Python evaluates `output_dir` first, so the call raises `NameError`
before saving.  On the unreachable success path the result is the
checkpoint path and whether the sink gets closed. -/
def predictFinalize (cfg : MTDNNConfig) : Except PyError (String × Bool) :=
  match pyGlobal "output_dir" with
  | .error e => .error e
  | .ok d =>
    match pyGlobal "epoch" with
    | .error e => .error e
    | .ok ep => .ok (pyJoin d ("model_" ++ ep ++ ".pt"), cfg.use_tensor_board)

/-! ### Association-list lemmas -/

theorem alookup_append_some {α β : Type} [DecidableEq α] {k : α} {v : β}
    {l l' : List (α × β)} (h : alookup k l = some v) :
    alookup k (l ++ l') = some v := by
  induction l with
  | nil => simp [alookup] at h
  | cons p rest ih =>
    obtain ⟨k', v'⟩ := p
    by_cases hk : k' = k
    · simpa [alookup, hk] using by simpa [alookup, hk] using h
    · simp only [alookup, if_neg hk, List.cons_append] at h ⊢
      exact ih h

theorem alookup_append_none {α β : Type} [DecidableEq α] {k : α}
    {l l' : List (α × β)} (h : alookup k l = none) :
    alookup k (l ++ l') = alookup k l' := by
  induction l with
  | nil => simp
  | cons p rest ih =>
    obtain ⟨k', v'⟩ := p
    by_cases hk : k' = k
    · simp [alookup, hk] at h
    · simp only [alookup, if_neg hk, List.cons_append] at h ⊢
      exact ih h

theorem alookup_mem {α β : Type} [DecidableEq α] {k : α} {v : β}
    {l : List (α × β)} (h : alookup k l = some v) : (k, v) ∈ l := by
  induction l with
  | nil => simp [alookup] at h
  | cons p rest ih =>
    obtain ⟨k', v'⟩ := p
    by_cases hk : k' = k
    · simp only [alookup, if_pos hk] at h
      subst hk
      obtain rfl : v' = v := Option.some.inj h
      exact List.mem_cons_self _ _
    · simp only [alookup, if_neg hk] at h
      exact List.mem_cons_of_mem _ (ih h)

theorem alookup_singleton {α β : Type} [DecidableEq α] (k : α) (v : β) :
    alookup k [(k, v)] = some v := by
  simp [alookup]

/-! ### `updateMin` lemmas -/

theorem updateMin_length_of_lt {l : List Int} {i : Nat} (v : Int)
    (h : i < l.length) : (updateMin l i v).length = l.length := by
  simp [updateMin, dif_pos h]

theorem updateMin_length_of_ge {l : List Int} {i : Nat} (v : Int)
    (h : ¬ i < l.length) : (updateMin l i v).length = l.length + 1 := by
  simp [updateMin, dif_neg h]

/-! ### The registry invariant -/

/-- The four unconditionally-appended sequences track the number of
distinct registered prefixes; the decoder-option and label-count
sequences track the number of distinct ids under the active sharing
policy. -/
def lengthsInv (cfg : MTDNNConfig) (st : RegistryState) : Prop :=
  st.task_types.length = st.tasks.length ∧
  st.loss_types.length = st.tasks.length ∧
  st.kd_loss_types.length = st.tasks.length ∧
  st.dropout_list.length = st.tasks.length ∧
  st.decoder_opts.length = idCount cfg st ∧
  st.nclass_list.length = idCount cfg st

/-- Both registry maps assign ids densely from 0 in first-seen order. -/
def denseInv (st : RegistryState) : Prop :=
  st.tasks.map Prod.snd = List.range st.tasks.length ∧
  st.tasks_class.map Prod.snd = List.range st.tasks_class.length

/-- What the `nclass_list` entries are: under class-sharing, exactly the
keys of `tasks_class` in insertion order; otherwise, one entry per
registered prefix holding that prefix's label count. -/
def nclassInv (cfg : MTDNNConfig) (td : TaskDefs) (st : RegistryState) : Prop :=
  if 0 < cfg.mtl_opt then st.nclass_list = st.tasks_class.map Prod.fst
  else List.Forall₂ (fun pr n => alookup pr.1 td.n_class_map = some n)
    st.tasks st.nclass_list

/-- Every `(prefix, task_id)` pair baked into a loaded training dataset
resolves, through the dev/test-time rule, back to that same id. -/
def taggedInv (cfg : MTDNNConfig) (td : TaskDefs) (st : RegistryState) : Prop :=
  ∀ p i, (p, i) ∈ st.tagged → testResolveId cfg td st p = some i

def RegInv (cfg : MTDNNConfig) (td : TaskDefs) (st : RegistryState) : Prop :=
  lengthsInv cfg st ∧ denseInv st ∧ nclassInv cfg td st ∧ taggedInv cfg td st

theorem inv_init (cfg : MTDNNConfig) (td : TaskDefs) : RegInv cfg td initRegistry := by
  refine ⟨⟨rfl, rfl, rfl, rfl, ?_, ?_⟩, ⟨rfl, rfl⟩, ?_, ?_⟩
  · simp [initRegistry, idCount]
  · simp [initRegistry, idCount]
  · by_cases h : 0 < cfg.mtl_opt <;> simp [nclassInv, initRegistry, h]
  · intro p i hmem
    simp [initRegistry] at hmem

/-! ### Case equations for `registerTask` -/

theorem registerTask_shared_old {cfg : MTDNNConfig} {st : RegistryState}
    {nclass cid : Nat} (pfx : String) (ttype : TaskType) (san : Bool)
    (lossT kdT dropout : Nat) (hm : 0 < cfg.mtl_opt)
    (hc : alookup nclass st.tasks_class = some cid) :
    registerTask cfg st pfx nclass ttype san lossT kdT dropout =
    { tasks := st.tasks ++ [(pfx, st.tasks.length)]
      tasks_class := st.tasks_class
      nclass_list := st.nclass_list
      decoder_opts := updateMin st.decoder_opts cid (generate_decoder_opt san cfg.answer_opt)
      task_types := st.task_types ++ [ttype]
      dropout_list := st.dropout_list ++ [dropout]
      loss_types := st.loss_types ++ [lossT]
      kd_loss_types := st.kd_loss_types ++ [kdT]
      tagged := st.tagged ++ [(pfx, cid)] } := by
  have hm1 : ¬ cfg.mtl_opt < 1 := by omega
  simp only [registerTask, hc, if_pos hm, if_neg hm1]

theorem registerTask_shared_new {cfg : MTDNNConfig} {st : RegistryState}
    {nclass : Nat} (pfx : String) (ttype : TaskType) (san : Bool)
    (lossT kdT dropout : Nat) (hm : 0 < cfg.mtl_opt)
    (hc : alookup nclass st.tasks_class = none) :
    registerTask cfg st pfx nclass ttype san lossT kdT dropout =
    { tasks := st.tasks ++ [(pfx, st.tasks.length)]
      tasks_class := st.tasks_class ++ [(nclass, st.tasks_class.length)]
      nclass_list := st.nclass_list ++ [nclass]
      decoder_opts := updateMin st.decoder_opts st.tasks_class.length
        (generate_decoder_opt san cfg.answer_opt)
      task_types := st.task_types ++ [ttype]
      dropout_list := st.dropout_list ++ [dropout]
      loss_types := st.loss_types ++ [lossT]
      kd_loss_types := st.kd_loss_types ++ [kdT]
      tagged := st.tagged ++ [(pfx, st.tasks_class.length)] } := by
  have hm1 : ¬ cfg.mtl_opt < 1 := by omega
  simp only [registerTask, hc, if_pos hm, if_neg hm1]

theorem registerTask_unshared_old {cfg : MTDNNConfig} {st : RegistryState}
    {nclass cid : Nat} (pfx : String) (ttype : TaskType) (san : Bool)
    (lossT kdT dropout : Nat) (hm : ¬ 0 < cfg.mtl_opt)
    (hc : alookup nclass st.tasks_class = some cid) :
    registerTask cfg st pfx nclass ttype san lossT kdT dropout =
    { tasks := st.tasks ++ [(pfx, st.tasks.length)]
      tasks_class := st.tasks_class
      nclass_list := st.nclass_list ++ [nclass]
      decoder_opts := updateMin st.decoder_opts st.tasks.length
        (generate_decoder_opt san cfg.answer_opt)
      task_types := st.task_types ++ [ttype]
      dropout_list := st.dropout_list ++ [dropout]
      loss_types := st.loss_types ++ [lossT]
      kd_loss_types := st.kd_loss_types ++ [kdT]
      tagged := st.tagged ++ [(pfx, st.tasks.length)] } := by
  have hm0 : cfg.mtl_opt < 1 := by omega
  simp only [registerTask, hc, if_neg hm, if_pos hm0]

theorem registerTask_unshared_new {cfg : MTDNNConfig} {st : RegistryState}
    {nclass : Nat} (pfx : String) (ttype : TaskType) (san : Bool)
    (lossT kdT dropout : Nat) (hm : ¬ 0 < cfg.mtl_opt)
    (hc : alookup nclass st.tasks_class = none) :
    registerTask cfg st pfx nclass ttype san lossT kdT dropout =
    { tasks := st.tasks ++ [(pfx, st.tasks.length)]
      tasks_class := st.tasks_class ++ [(nclass, st.tasks_class.length)]
      nclass_list := st.nclass_list ++ [nclass]
      decoder_opts := updateMin st.decoder_opts st.tasks.length
        (generate_decoder_opt san cfg.answer_opt)
      task_types := st.task_types ++ [ttype]
      dropout_list := st.dropout_list ++ [dropout]
      loss_types := st.loss_types ++ [lossT]
      kd_loss_types := st.kd_loss_types ++ [kdT]
      tagged := st.tagged ++ [(pfx, st.tasks.length)] } := by
  have hm0 : cfg.mtl_opt < 1 := by omega
  simp only [registerTask, hc, if_neg hm, if_pos hm0]

/-! ### Invariant preservation -/

theorem dense_append_last {α : Type} (l : List (α × Nat)) (a : α)
    (h : l.map Prod.snd = List.range l.length) :
    (l ++ [(a, l.length)]).map Prod.snd = List.range (l ++ [(a, l.length)]).length := by
  simp [List.range_succ, h]

theorem registerTask_inv {cfg : MTDNNConfig} {td : TaskDefs} {st : RegistryState}
    {pfx : String} {nclass : Nat} {ttype : TaskType} {san : Bool}
    {lossT kdT dropout : Nat}
    (hinv : RegInv cfg td st)
    (hpfx : alookup pfx st.tasks = none)
    (hnc : alookup pfx td.n_class_map = some nclass) :
    RegInv cfg td (registerTask cfg st pfx nclass ttype san lossT kdT dropout) := by
  obtain ⟨⟨h1, h2, h3, h4, h5, h6⟩, ⟨hd1, hd2⟩, hncl, htag⟩ := hinv
  by_cases hm : 0 < cfg.mtl_opt
  · rw [idCount, if_pos hm] at h5 h6
    rw [nclassInv, if_pos hm] at hncl
    cases hc : alookup nclass st.tasks_class with
    | some cid =>
      have hcid : cid < st.tasks_class.length := by
        have hmem : cid ∈ st.tasks_class.map Prod.snd :=
          List.mem_map_of_mem Prod.snd (alookup_mem hc)
        rw [hd2] at hmem
        exact List.mem_range.mp hmem
      rw [registerTask_shared_old pfx ttype san lossT kdT dropout hm hc]
      refine ⟨⟨?_, ?_, ?_, ?_, ?_, ?_⟩, ⟨?_, ?_⟩, ?_, ?_⟩
      · simp [h1]
      · simp [h2]
      · simp [h3]
      · simp [h4]
      · simp only [idCount, if_pos hm]
        rw [updateMin_length_of_lt _ (h5 ▸ hcid)]
        exact h5
      · simp only [idCount, if_pos hm]
        exact h6
      · exact dense_append_last st.tasks pfx hd1
      · exact hd2
      · rw [nclassInv, if_pos hm]
        exact hncl
      · intro p i hmem
        simp only [List.mem_append, List.mem_singleton] at hmem
        rcases hmem with hold | hnew
        · have := htag p i hold
          rw [testResolveId, if_pos hm] at this ⊢
          exact this
        · obtain ⟨rfl, rfl⟩ := Prod.mk.injEq .. ▸ hnew
          rw [testResolveId, if_pos hm, hnc]
          exact hc
    | none =>
      rw [registerTask_shared_new pfx ttype san lossT kdT dropout hm hc]
      refine ⟨⟨?_, ?_, ?_, ?_, ?_, ?_⟩, ⟨?_, ?_⟩, ?_, ?_⟩
      · simp [h1]
      · simp [h2]
      · simp [h3]
      · simp [h4]
      · simp only [idCount, if_pos hm]
        rw [updateMin_length_of_ge _ (by omega : ¬ st.tasks_class.length < st.decoder_opts.length)]
        simp [h5]
      · simp only [idCount, if_pos hm]
        simp [h6]
      · exact dense_append_last st.tasks pfx hd1
      · exact dense_append_last st.tasks_class nclass hd2
      · rw [nclassInv, if_pos hm]
        simp [hncl]
      · intro p i hmem
        simp only [List.mem_append, List.mem_singleton] at hmem
        rcases hmem with hold | hnew
        · have hres := htag p i hold
          rw [testResolveId, if_pos hm] at hres ⊢
          cases hpn : alookup p td.n_class_map with
          | none => rw [hpn] at hres; exact absurd hres (by simp)
          | some nc =>
            rw [hpn] at hres
            exact alookup_append_some hres
        · rw [Prod.mk.injEq] at hnew
          obtain ⟨rfl, rfl⟩ := hnew
          rw [testResolveId, if_pos hm, hnc]
          show alookup nclass (st.tasks_class ++ [(nclass, st.tasks_class.length)]) =
            some st.tasks_class.length
          rw [alookup_append_none hc]
          exact alookup_singleton nclass st.tasks_class.length
  · rw [idCount, if_neg hm] at h5 h6
    rw [nclassInv, if_neg hm] at hncl
    have hset : ¬ st.tasks.length < st.decoder_opts.length := by omega
    have hstep : ∀ (tc' : List (Nat × Nat)),
        st.tasks_class.map Prod.snd = List.range st.tasks_class.length →
        tc' = st.tasks_class ∨
          tc' = st.tasks_class ++ [(nclass, st.tasks_class.length)] →
        True := fun _ _ _ => trivial
    cases hc : alookup nclass st.tasks_class with
    | some cid =>
      rw [registerTask_unshared_old pfx ttype san lossT kdT dropout hm hc]
      refine ⟨⟨?_, ?_, ?_, ?_, ?_, ?_⟩, ⟨?_, ?_⟩, ?_, ?_⟩
      · simp [h1]
      · simp [h2]
      · simp [h3]
      · simp [h4]
      · simp only [idCount, if_neg hm]
        rw [updateMin_length_of_ge _ hset]
        simp [h5]
      · simp only [idCount, if_neg hm]
        simp [h6]
      · exact dense_append_last st.tasks pfx hd1
      · exact hd2
      · rw [nclassInv, if_neg hm]
        exact List.rel_append hncl (List.Forall₂.cons hnc List.Forall₂.nil)
      · intro p i hmem
        simp only [List.mem_append, List.mem_singleton] at hmem
        rcases hmem with hold | hnew
        · have hres := htag p i hold
          rw [testResolveId, if_neg hm] at hres ⊢
          exact alookup_append_some hres
        · rw [Prod.mk.injEq] at hnew
          obtain ⟨rfl, rfl⟩ := hnew
          rw [testResolveId, if_neg hm]
          show alookup _ (st.tasks ++ [(_, st.tasks.length)]) = some st.tasks.length
          rw [alookup_append_none hpfx]
          exact alookup_singleton _ _
    | none =>
      rw [registerTask_unshared_new pfx ttype san lossT kdT dropout hm hc]
      refine ⟨⟨?_, ?_, ?_, ?_, ?_, ?_⟩, ⟨?_, ?_⟩, ?_, ?_⟩
      · simp [h1]
      · simp [h2]
      · simp [h3]
      · simp [h4]
      · simp only [idCount, if_neg hm]
        rw [updateMin_length_of_ge _ hset]
        simp [h5]
      · simp only [idCount, if_neg hm]
        simp [h6]
      · exact dense_append_last st.tasks pfx hd1
      · exact dense_append_last st.tasks_class nclass hd2
      · rw [nclassInv, if_neg hm]
        exact List.rel_append hncl (List.Forall₂.cons hnc List.Forall₂.nil)
      · intro p i hmem
        simp only [List.mem_append, List.mem_singleton] at hmem
        rcases hmem with hold | hnew
        · have hres := htag p i hold
          rw [testResolveId, if_neg hm] at hres ⊢
          exact alookup_append_some hres
        · rw [Prod.mk.injEq] at hnew
          obtain ⟨rfl, rfl⟩ := hnew
          rw [testResolveId, if_neg hm]
          show alookup _ (st.tasks ++ [(_, st.tasks.length)]) = some st.tasks.length
          rw [alookup_append_none hpfx]
          exact alookup_singleton _ _

theorem processOne_inv {cfg : MTDNNConfig} {td : TaskDefs} {st st' : RegistryState}
    {d : String} (h : RegInv cfg td st) (hp : processOne cfg td st d = some st') :
    RegInv cfg td st' := by
  simp only [processOne] at hp
  by_cases hreg : (alookup (pySplitHead d) st.tasks).isSome
  · rw [if_pos hreg] at hp
    cases hp
    exact h
  · rw [if_neg hreg] at hp
    have hpfx : alookup (pySplitHead d) st.tasks = none :=
      Option.not_isSome_iff_eq_none.mp hreg
    split at hp
    · cases hp
      apply registerTask_inv h hpfx
      assumption
    · cases hp

theorem processLoop_inv {cfg : MTDNNConfig} {td : TaskDefs} :
    ∀ (ds : List String) (st st' : RegistryState),
    RegInv cfg td st → processLoop cfg td ds st = some st' → RegInv cfg td st'
  | [], _, _, h, hp => by
    simp only [processLoop] at hp
    cases hp
    exact h
  | d :: rest, st, st', h, hp => by
    simp only [processLoop] at hp
    cases ho : processOne cfg td st d with
    | none => rw [ho] at hp; cases hp
    | some st1 =>
      rw [ho] at hp
      exact processLoop_inv rest st1 st' (processOne_inv h ho) hp

/-- The registry invariant holds for every state `_process_train_datasets`
successfully produces. -/
theorem process_train_datasets_inv {cfg : MTDNNConfig} {td : TaskDefs}
    {ds : List String} {st : RegistryState}
    (hp : process_train_datasets cfg td ds = some st) : RegInv cfg td st :=
  processLoop_inv ds initRegistry st (inv_init cfg td) hp

/-! ### Characterisation of the dev/test loop -/

theorem getD_append_last {α : Type} (l : List α) (x d : α) :
    (l ++ [x]).getD l.length d = x := by
  rw [List.getD_append_right _ _ _ _ (Nat.le_refl _), Nat.sub_self]
  rfl

theorem devTestLoop_spec {cfg : MTDNNConfig} {td : TaskDefs} {st : RegistryState}
    {data_dir : String} {ef : String → Bool} :
    ∀ (l : List String) (accD accT D T : List (Option LoaderSpec)),
    devTestLoop cfg td st data_dir ef l accD accT = some (D, T) →
    D.length = accD.length + l.length ∧
    T.length = accT.length + l.length ∧
    (∀ i, i < accD.length → D.getD i none = accD.getD i none) ∧
    (∀ i, i < accT.length → T.getD i none = accT.getD i none) ∧
    (∀ i, ∀ h : i < l.length,
      devTestOne cfg td st data_dir ef (l.get ⟨i, h⟩) =
        some (D.getD (accD.length + i) none, T.getD (accT.length + i) none))
  | [], accD, accT, D, T, hp => by
    simp only [devTestLoop] at hp
    obtain ⟨rfl, rfl⟩ := Prod.mk.injEq .. ▸ Option.some.inj hp
    refine ⟨by simp, by simp, fun i _ => rfl, fun i _ => rfl, fun i h => absurd h (by simp)⟩
  | d :: rest, accD, accT, D, T, hp => by
    simp only [devTestLoop] at hp
    cases ho : devTestOne cfg td st data_dir ef d with
    | none => rw [ho] at hp; cases hp
    | some p =>
      obtain ⟨x, y⟩ := p
      rw [ho] at hp
      obtain ⟨hDl, hTl, hDp, hTp, hent⟩ :=
        devTestLoop_spec rest (accD ++ [x]) (accT ++ [y]) D T hp
      simp only [List.length_append, List.length_singleton] at hDl hTl
      refine ⟨by simpa using by omega, by simpa using by omega, ?_, ?_, ?_⟩
      · intro i hi
        rw [hDp i (by simpa using by omega), List.getD_append _ _ _ _ hi]
      · intro i hi
        rw [hTp i (by simpa using by omega), List.getD_append _ _ _ _ hi]
      · intro i h
        cases i with
        | zero =>
          have hx := hDp accD.length (by simp)
          have hy := hTp accT.length (by simp)
          rw [getD_append_last] at hx hy
          simp only [Nat.add_zero]
          rw [hx, hy]
          exact ho
        | succ j =>
          have hj : j < rest.length := by
            have hlen := h
            simp only [List.length_cons] at hlen
            omega
          have := hent j hj
          simp only [List.length_append, List.length_singleton] at this
          have harith : accD.length + 1 + j = accD.length + (j + 1) := by omega
          have harith' : accT.length + 1 + j = accT.length + (j + 1) := by omega
          rw [harith, harith'] at this
          simpa using this

/-! ### Concrete fixtures for counterexamples and witnesses -/

/-- A class-sharing run configuration (`mtl_opt = 1`). -/
def cfgShare : MTDNNConfig :=
  { mtl_opt := 1, answer_opt := 1, dropout_p := 5, epochs := 1,
    log_per_updates := 1, grad_accumulation_step := 1, save_per_updates := 1,
    save_per_updates_on := true, use_tensor_board := false }

/-- The same configuration with class-sharing disabled (`mtl_opt = 0`). -/
def cfgNoShare : MTDNNConfig := { cfgShare with mtl_opt := 0 }

/-- Task definitions for two prefixes with the same label count (2), the
san capability flags left as parameters. -/
def tdPairSan (s1 s2 : Bool) : TaskDefs :=
  { n_class_map := [("cola", 2), ("sst", 2)]
    data_type_map := [("cola", 0), ("sst", 0)]
    task_type_map := [("cola", .Classification), ("sst", .Classification)]
    enable_san_map := [("cola", s1), ("sst", s2)]
    loss_map := [("cola", 0), ("sst", 0)]
    kd_loss_map := [("cola", 1), ("sst", 1)]
    dropout_p_map := [] }

/-- Two same-label-count prefixes, `cola` with san on and `sst` with san
off. -/
def tdPair : TaskDefs := tdPairSan true false

/-- The registry state the embedding computes for
`process_train_datasets cfgShare tdPair ["cola", "sst"]`. -/
def stShare : RegistryState :=
  { tasks := [("cola", 0), ("sst", 1)], tasks_class := [(2, 0)],
    nclass_list := [2], decoder_opts := [0],
    task_types := [.Classification, .Classification], dropout_list := [5, 5],
    loss_types := [0, 0], kd_loss_types := [1, 1],
    tagged := [("cola", 0), ("sst", 0)] }

/-- The registry state the embedding computes for
`process_train_datasets cfgNoShare tdPair ["cola", "sst"]`. -/
def stNoShare : RegistryState :=
  { tasks := [("cola", 0), ("sst", 1)], tasks_class := [(2, 0)],
    nclass_list := [2, 2], decoder_opts := [1, 0],
    task_types := [.Classification, .Classification], dropout_list := [5, 5],
    loss_types := [0, 0], kd_loss_types := [1, 1],
    tagged := [("cola", 0), ("sst", 1)] }

/-! ### Claim theorems -/

/-- C9: the computed decoder option equals `max_opt` exactly when the
task enables san and `max_opt < 3`, and `0` otherwise; in particular
`generate_decoder_opt true 2 = 2`, `generate_decoder_opt true 3 = 0` and
`generate_decoder_opt false 2 = 0`. -/
theorem mtdnn_C9_decoder_opt :
    (∀ (san : Bool) (max_opt : Int),
      generate_decoder_opt san max_opt =
        if san = true ∧ max_opt < 3 then max_opt else 0) ∧
    generate_decoder_opt true 2 = 2 ∧
    generate_decoder_opt true 3 = 0 ∧
    generate_decoder_opt false 2 = 0 := by
  refine ⟨fun san mo => rfl, by decide, by decide, by decide⟩

/-- C1 (counterexample): under class-sharing with the two prefixes of
`tdPair` collapsing onto one shared id, the merged config's `task_types`
sequence has length 2 while its `decoder_opts` sequence has length 1 —
the six parallel sequences do not all have equal length. -/
theorem mtdnn_C1_cex :
    ¬ ((process_train_datasets cfgShare tdPair ["cola", "sst"]).map
        (fun st => (update_config cfgShare st).task_types.length) =
      (process_train_datasets cfgShare tdPair ["cola", "sst"]).map
        (fun st => (update_config cfgShare st).decoder_opts.length)) := by
  decide

/-- C1 (amended): after training-data processing completes and the
snapshot is merged into the config, `decoder_opts` and
`tasks_nclass_list` have length equal to the number of distinct ids
produced under the active sharing policy, while `task_types`,
`loss_types`, `kd_loss_types` and `tasks_dropout_p` have length equal to
the number of distinct registered prefixes; when class-sharing is
disabled the two counts coincide, so all six sequences have equal
length. -/
theorem mtdnn_C1_lengths {cfg : MTDNNConfig} {td : TaskDefs}
    {ds : List String} {st : RegistryState}
    (hp : process_train_datasets cfg td ds = some st) :
    (update_config cfg st).task_types.length = st.tasks.length ∧
    (update_config cfg st).loss_types.length = st.tasks.length ∧
    (update_config cfg st).kd_loss_types.length = st.tasks.length ∧
    (update_config cfg st).tasks_dropout_p.length = st.tasks.length ∧
    (update_config cfg st).decoder_opts.length = idCount cfg st ∧
    (update_config cfg st).tasks_nclass_list.length = idCount cfg st ∧
    (cfg.mtl_opt < 1 →
      (update_config cfg st).decoder_opts.length =
        (update_config cfg st).task_types.length ∧
      (update_config cfg st).tasks_nclass_list.length =
        (update_config cfg st).task_types.length) := by
  obtain ⟨⟨h1, h2, h3, h4, h5, h6⟩, _, _, _⟩ := process_train_datasets_inv hp
  refine ⟨h1, h2, h3, h4, h5, h6, fun hlt => ?_⟩
  have hm : ¬ 0 < cfg.mtl_opt := by omega
  rw [idCount, if_neg hm] at h5 h6
  exact ⟨h5.trans h1.symm, h6.trans h1.symm⟩

/-- C1 witness: the amended statement instantiated on a concrete
no-sharing run with two registered prefixes. -/
theorem mtdnn_C1_lengths_witness :
    process_train_datasets cfgNoShare tdPair ["cola", "sst"] = some stNoShare ∧
    ((update_config cfgNoShare stNoShare).task_types.length = stNoShare.tasks.length ∧
     (update_config cfgNoShare stNoShare).loss_types.length = stNoShare.tasks.length ∧
     (update_config cfgNoShare stNoShare).kd_loss_types.length = stNoShare.tasks.length ∧
     (update_config cfgNoShare stNoShare).tasks_dropout_p.length = stNoShare.tasks.length ∧
     (update_config cfgNoShare stNoShare).decoder_opts.length = idCount cfgNoShare stNoShare ∧
     (update_config cfgNoShare stNoShare).tasks_nclass_list.length = idCount cfgNoShare stNoShare ∧
     (cfgNoShare.mtl_opt < 1 →
       (update_config cfgNoShare stNoShare).decoder_opts.length =
         (update_config cfgNoShare stNoShare).task_types.length ∧
       (update_config cfgNoShare stNoShare).tasks_nclass_list.length =
         (update_config cfgNoShare stNoShare).task_types.length)) :=
  ⟨by decide, @mtdnn_C1_lengths cfgNoShare tdPair ["cola", "sst"] stNoShare (by decide)⟩

/-- C8: with class-sharing disabled (`mtl_opt < 1`), every registered
prefix gets its own distinct task id, dense from 0 in first-seen order,
and contributes its own `nclass_list` entry holding its own label count
— even when label counts collide. -/
theorem mtdnn_C8_unshared {cfg : MTDNNConfig} {td : TaskDefs}
    {ds : List String} {st : RegistryState} (hm : cfg.mtl_opt < 1)
    (hp : process_train_datasets cfg td ds = some st) :
    st.tasks.map Prod.snd = List.range st.tasks.length ∧
    List.Forall₂ (fun pr n => alookup pr.1 td.n_class_map = some n)
      st.tasks st.nclass_list := by
  obtain ⟨_, ⟨hd1, _⟩, hncl, _⟩ := process_train_datasets_inv hp
  rw [nclassInv, if_neg (by omega : ¬ 0 < cfg.mtl_opt)] at hncl
  exact ⟨hd1, hncl⟩

/-- C8 witness: a no-sharing run with two prefixes of identical label
count still yields distinct dense ids 0, 1 and two `nclass_list`
entries. -/
theorem mtdnn_C8_unshared_witness :
    (cfgNoShare.mtl_opt < 1 ∧
     process_train_datasets cfgNoShare tdPair ["cola", "sst"] = some stNoShare) ∧
    (stNoShare.tasks.map Prod.snd = List.range stNoShare.tasks.length ∧
     List.Forall₂ (fun pr n => alookup pr.1 tdPair.n_class_map = some n)
       stNoShare.tasks stNoShare.nclass_list) :=
  ⟨⟨by decide, by decide⟩,
    @mtdnn_C8_unshared cfgNoShare tdPair ["cola", "sst"] stNoShare (by decide) (by decide)⟩

/-- C6: every `(prefix, task_id)` pair a loaded training dataset was
tagged with resolves, through the dev/test-time sharing-policy rule, to
exactly that id: dev/test processing attributes the prefix to the id
training assigned it. -/
theorem mtdnn_C6_resolution {cfg : MTDNNConfig} {td : TaskDefs}
    {ds : List String} {st : RegistryState}
    (hp : process_train_datasets cfg td ds = some st)
    {p : String} {i : Nat} (hmem : (p, i) ∈ st.tagged) :
    testResolveId cfg td st p = some i :=
  (process_train_datasets_inv hp).2.2.2 p i hmem

/-- C6 witness: under class-sharing, training tagged `sst` with the
shared id 0 and dev/test resolution returns the same id 0. -/
theorem mtdnn_C6_resolution_witness :
    (process_train_datasets cfgShare tdPair ["cola", "sst"] = some stShare ∧
     ("sst", 0) ∈ stShare.tagged) ∧
    testResolveId cfgShare tdPair stShare "sst" = some 0 :=
  ⟨⟨by decide, by decide⟩,
    @mtdnn_C6_resolution cfgShare tdPair ["cola", "sst"] stShare (by decide) "sst" 0 (by decide)⟩

theorem updateMin_nil (i : Nat) (v : Int) : updateMin [] i v = [v] := by
  simp [updateMin]

theorem updateMin_singleton (x v : Int) : updateMin [x] 0 v = [min x v] := by
  simp [updateMin]

/-- The registry state after registering `cola` (san flag `s1`) first,
under class-sharing. -/
def st1C2 (cfg : MTDNNConfig) (s1 : Bool) : RegistryState :=
  { tasks := [("cola", 0)], tasks_class := [(2, 0)], nclass_list := [2],
    decoder_opts := [generate_decoder_opt s1 cfg.answer_opt],
    task_types := [.Classification], dropout_list := [cfg.dropout_p],
    loss_types := [0], kd_loss_types := [1], tagged := [("cola", 0)] }

/-- C2: with class-sharing enabled, two distinct prefixes with the same
label count produce a single decoder-option entry for their shared id,
equal to the `min` of the two individually computed decoder options, and
the shared label count appears exactly once in `nclass_list`. -/
theorem mtdnn_C2_shared_min (s1 s2 : Bool) (cfg : MTDNNConfig)
    (hm : 0 < cfg.mtl_opt) :
    (process_train_datasets cfg (tdPairSan s1 s2) ["cola", "sst"]).map
      (fun st => (st.decoder_opts, st.nclass_list.count 2)) =
    some ([min (generate_decoder_opt s1 cfg.answer_opt)
      (generate_decoder_opt s2 cfg.answer_opt)], 1) := by
  have hst1 : registerTask cfg initRegistry "cola" 2 TaskType.Classification
      s1 0 1 cfg.dropout_p = st1C2 cfg s1 := by
    rw [registerTask_shared_new "cola" TaskType.Classification s1 0 1 cfg.dropout_p hm
      (show alookup 2 initRegistry.tasks_class = none from rfl)]
    simp [st1C2, initRegistry, updateMin_nil]
  have e1 : process_train_datasets cfg (tdPairSan s1 s2) ["cola", "sst"] =
      processLoop cfg (tdPairSan s1 s2) ["sst"]
        (registerTask cfg initRegistry "cola" 2 TaskType.Classification
          s1 0 1 cfg.dropout_p) := rfl
  rw [e1, hst1]
  have e2 : processLoop cfg (tdPairSan s1 s2) ["sst"] (st1C2 cfg s1) =
      some (registerTask cfg (st1C2 cfg s1) "sst" 2 TaskType.Classification
        s2 0 1 cfg.dropout_p) := rfl
  rw [e2, registerTask_shared_old "sst" TaskType.Classification s2 0 1 cfg.dropout_p hm
    (show alookup 2 (st1C2 cfg s1).tasks_class = some 0 from rfl)]
  simp [st1C2, updateMin_singleton]

/-- C2 witness: the concrete class-sharing run of `tdPair` (san on for
`cola`, off for `sst`, `answer_opt = 1`) yields
`decoder_opts = [min 1 0] = [0]` and label count 2 exactly once. -/
theorem mtdnn_C2_shared_min_witness :
    0 < cfgShare.mtl_opt ∧
    (process_train_datasets cfgShare (tdPairSan true false) ["cola", "sst"]).map
      (fun st => (st.decoder_opts, st.nclass_list.count 2)) =
    some ([min (generate_decoder_opt true cfgShare.answer_opt)
      (generate_decoder_opt false cfgShare.answer_opt)], 1) :=
  ⟨by decide, mtdnn_C2_shared_min true false cfgShare (by decide)⟩

/-- C10: whenever dev/test processing returns, the dev-dataloader list
and the test-dataloader list each have length exactly the number of
requested test identifiers, and entry `i` of each list is the dev
(respectively test) entry the per-identifier body computes for the
identifier at position `i` — one entry per identifier, unconditionally. -/
theorem mtdnn_C10_lengths {cfg : MTDNNConfig} {td : TaskDefs}
    {st : RegistryState} {data_dir : String} {ef : String → Bool}
    {ds : List String} {devs tests : List (Option LoaderSpec)}
    (hp : process_dev_test_datasets cfg td st data_dir ef ds = some (devs, tests)) :
    devs.length = ds.length ∧ tests.length = ds.length ∧
    ∀ i, ∀ h : i < ds.length,
      devTestOne cfg td st data_dir ef (ds.get ⟨i, h⟩) =
        some (devs.getD i none, tests.getD i none) := by
  obtain ⟨h1, h2, _, _, hent⟩ := devTestLoop_spec ds [] [] devs tests hp
  refine ⟨by simpa using h1, by simpa using h2, fun i h => by simpa using hent i h⟩

/-- The membership test used by the concrete dev/test fixtures: only
`cola`'s dev file exists in the data directory. -/
def efCola : String → Bool := fun s => s == "dd/cola_dev.json"

/-- The dev-dataloader list the embedding computes for the fixture run
over `["cola", "sst_x"]`. -/
def devsW : List (Option LoaderSpec) :=
  [some { path := "dd/cola_dev.json", task_id := 0,
          task_type := .Classification, data_type := 0 }, none]

/-- The test-dataloader list of the same fixture run: no test file
exists. -/
def testsW : List (Option LoaderSpec) := [none, none]

/-- C10 witness: the fixture run with two identifiers returns two dev
entries and two test entries, each matching its per-identifier value. -/
theorem mtdnn_C10_lengths_witness :
    process_dev_test_datasets cfgShare tdPair stShare "dd" efCola
      ["cola", "sst_x"] = some (devsW, testsW) ∧
    (devsW.length = (["cola", "sst_x"] : List String).length ∧
     testsW.length = (["cola", "sst_x"] : List String).length ∧
     ∀ i, ∀ h : i < (["cola", "sst_x"] : List String).length,
       devTestOne cfgShare tdPair stShare "dd" efCola
           ((["cola", "sst_x"] : List String).get ⟨i, h⟩) =
         some (devsW.getD i none, testsW.getD i none)) :=
  ⟨by decide,
    @mtdnn_C10_lengths cfgShare tdPair stShare "dd" efCola
      ["cola", "sst_x"] devsW testsW (by decide)⟩

/-- C5: for a test identifier whose dev (respectively test) split file is
absent from the data directory, the corresponding dev (respectively
test) dataloader entry is `None` rather than an error, and the
evaluation phase for that split of that task writes no score artifact
and emits no metric event. -/
theorem mtdnn_C5_missing_split {cfg : MTDNNConfig} {td : TaskDefs}
    {st : RegistryState} {data_dir : String} {ef : String → Bool}
    {ds : List String} {devs tests : List (Option LoaderSpec)}
    (hp : process_dev_test_datasets cfg td st data_dir ef ds = some (devs, tests))
    {i : Nat} (h : i < ds.length) :
    (ef (pyJoin data_dir (ds.get ⟨i, h⟩ ++ "_dev.json")) = false →
      devs.getD i none = none ∧
      predictDevPhase (devs.getD i none) = .ok ([], [])) ∧
    (ef (pyJoin data_dir (ds.get ⟨i, h⟩ ++ "_test.json")) = false →
      tests.getD i none = none ∧
      predictTestPhase (tests.getD i none) = .ok ([], [])) := by
  obtain ⟨_, _, _, _, hent⟩ := devTestLoop_spec ds [] [] devs tests hp
  have he := hent i (by simpa using h)
  simp only [Nat.zero_add, List.length_nil] at he
  simp only [devTestOne] at he
  split at he
  · next task_id ttype dtype heq1 heq2 heq3 =>
    obtain ⟨hdev, htest⟩ := Prod.mk.injEq .. ▸ Option.some.inj he
    constructor
    · intro hef
      rw [hef] at hdev
      simp only [Bool.false_eq_true, if_false] at hdev
      exact ⟨hdev.symm, by rw [← hdev]; rfl⟩
    · intro hef
      rw [hef] at htest
      simp only [Bool.false_eq_true, if_false] at htest
      exact ⟨htest.symm, by rw [← htest]; rfl⟩
  · cases he

/-- C5 witness: identifier `sst_x` (position 1) has neither dev nor test
file; both entries are `None` and both evaluation phases produce no
artifact and no event. -/
theorem mtdnn_C5_missing_split_witness :
    (process_dev_test_datasets cfgShare tdPair stShare "dd" efCola
        ["cola", "sst_x"] = some (devsW, testsW) ∧
      1 < (["cola", "sst_x"] : List String).length) ∧
    ((efCola (pyJoin "dd" ((["cola", "sst_x"] : List String).get
          ⟨1, by decide⟩ ++ "_dev.json")) = false →
        devsW.getD 1 none = none ∧
        predictDevPhase (devsW.getD 1 none) = .ok ([], [])) ∧
     (efCola (pyJoin "dd" ((["cola", "sst_x"] : List String).get
          ⟨1, by decide⟩ ++ "_test.json")) = false →
        testsW.getD 1 none = none ∧
        predictTestPhase (testsW.getD 1 none) = .ok ([], []))) :=
  ⟨⟨by decide, by decide⟩,
    @mtdnn_C5_missing_split cfgShare tdPair stShare "dd" efCola
      ["cola", "sst_x"] devsW testsW (by decide) 1 (by decide)⟩

/-- C3: in every `fit` batch iteration, a log/metric event is emitted
exactly when `local_updates = 1` or `local_updates` is divisible by
`log_per_updates * grad_accumulation_step`, and it carries the current
batch's task id, the model-reported global update count, the running
loss average, and the remaining-time estimate
`elapsed / batches_processed * (total_batches - batches_processed)`
with `batches_processed = idx + 1`. -/
theorem mtdnn_C3_log_cadence (cfg : MTDNNConfig) (m : ModelState)
    (task_id idx total : Nat) (elapsed : ℚ) (epoch : Nat)
    (hpos : 0 < cfg.log_per_updates * cfg.grad_accumulation_step) :
    (fitBatchStep cfg m task_id idx total elapsed epoch).logEvent =
      if m.local_updates = 1 ∨
          m.local_updates % (cfg.log_per_updates * cfg.grad_accumulation_step) = 0 then
        some { task_id := task_id, updates := m.updates,
               train_loss_avg := m.train_loss_avg,
               time_left := elapsed / ((idx : ℚ) + 1) *
                 ((total : ℚ) - ((idx : ℚ) + 1)) }
      else none := by
  unfold fitBatchStep
  dsimp only
  split
  · refine congrArg some ?_
    simp only [LogEvent.mk.injEq]
    exact ⟨trivial, trivial, trivial, by ring⟩
  · rfl

/-- Configuration for the concrete log-cadence run: log every 2 updates. -/
def cfgLog : MTDNNConfig := { cfgShare with log_per_updates := 2 }

/-- Model counters after the fourth batch of the run. -/
def mLog : ModelState := { local_updates := 4, updates := 4, train_loss_avg := 7 }

/-- C3 witness: at `local_updates = 4` with cadence `2 * 1` the event
fires and carries the estimate `10 / 4 * (8 - 4)`. -/
theorem mtdnn_C3_log_cadence_witness :
    0 < cfgLog.log_per_updates * cfgLog.grad_accumulation_step ∧
    (fitBatchStep cfgLog mLog 1 3 8 10 0).logEvent =
      (if mLog.local_updates = 1 ∨
          mLog.local_updates %
            (cfgLog.log_per_updates * cfgLog.grad_accumulation_step) = 0 then
        some { task_id := 1, updates := mLog.updates,
               train_loss_avg := mLog.train_loss_avg,
               time_left := (10 : ℚ) / (((3 : Nat) : ℚ) + 1) *
                 (((8 : Nat) : ℚ) - (((3 : Nat) : ℚ) + 1)) }
      else none) :=
  ⟨by decide, mtdnn_C3_log_cadence cfgLog mLog 1 3 8 10 0 (by decide)⟩

/-- Model counters at the first interval-checkpoint point of the
concrete run (`save_per_updates = 1`, `grad_accumulation_step = 1`). -/
def mSave : ModelState := { local_updates := 1, updates := 1, train_loss_avg := 0 }

/-- C4: at a state where the interval-checkpoint condition holds
(`save_per_updates_on` set, `local_updates` divisible by
`save_per_updates * grad_accumulation_step`), the save attempt does not
produce the path `<output_dir>/model_<epoch>_<updates>.pt`: the body
reads the module-global name `output_dir`, which is unbound (the
constructor stored the directory as `self.output_dir`), so the attempt
raises `NameError` instead of persisting the model. -/
theorem mtdnn_C4_save_namerror :
    (fitBatchStep cfgShare mSave 0 0 8 10 0).saveResult =
      some (Except.error (PyError.nameError "output_dir")) := by rfl

/-- C7: `predict`'s finalisation never reaches the end-of-evaluation
checkpoint or the sink release: the path join for the epoch-named
checkpoint file reads the unbound module-global `output_dir` (and would
next read the unbound `epoch`), so it raises `NameError` before the
model is saved and before `close_connections` runs. -/
theorem mtdnn_C7_finalize_namerror :
    predictFinalize cfgShare = Except.error (PyError.nameError "output_dir") := by rfl
